import Mathlib

/-!
Shallow embedding of the SQLApi task-manager data-access layer
(`src/api/models.py` and `src/api/api.py`).

The relational store is a record of row lists, one per table, together
with the per-table surrogate-key counters.  Each public operation of
`TaskManagerAPI` becomes a Lean function from the committed store to the
committed store.  A possible `SQLAlchemyError` raised by the engine at a
`session.commit()` is injected through an `Option String` parameter per
commit: `none` means the commit succeeds, `some cause` means the engine
raises with message `cause`; the operation then performs the
`session.rollback()` of the source (the committed store is returned
unchanged, pending changes are dropped) and re-raises a wrapped error.
Queries (`.first()`) are `List.find?` in insertion order; `.all()` is
`List.filter`.
-/

namespace SQLApi

/-- `models.py` `User`: id (primary key), name. -/
structure UserRow where
  id : Nat
  name : String
deriving Repr, DecidableEq

/-- `models.py` `UserID`: id, user_id (FK users.id), identifier, identifier_type. -/
structure UserIDRow where
  id : Nat
  user_id : Nat
  identifier : String
  identifier_type : String
deriving Repr, DecidableEq

/-- `models.py` `Task`: id, user_id, name, progress (default 0), is_regular (default False). -/
structure TaskRow where
  id : Nat
  user_id : Nat
  name : String
  progress : Int
  is_regular : Bool
deriving Repr, DecidableEq

/-- `models.py` `RegularTask`: id, task_id (FK tasks.id), weekdays. -/
structure RegularTaskRow where
  id : Nat
  task_id : Nat
  weekdays : String
deriving Repr, DecidableEq

/-- A `datetime.date` value.  Python `date` objects are always truthy,
which matters for the `if optimal_deadline:` tests in
`update_irregular_task`. -/
structure DateV where
  year : Nat
  month : Nat
  day : Nat
deriving Repr, DecidableEq

/-- `models.py` `IrregularTask`: id, task_id (FK tasks.id), optimal_deadline, hard_deadline. -/
structure IrregularTaskRow where
  id : Nat
  task_id : Nat
  optimal_deadline : DateV
  hard_deadline : DateV
deriving Repr, DecidableEq

/-- The committed relational store: the five tables of `models.py`
plus the autoincrement counter of each table's primary key. -/
structure Store where
  users : List UserRow
  user_ids : List UserIDRow
  tasks : List TaskRow
  regular_tasks : List RegularTaskRow
  irregular_tasks : List IrregularTaskRow
  nextUserId : Nat
  nextUserIDId : Nat
  nextTaskId : Nat
  nextRegularId : Nat
  nextIrregularId : Nat
deriving Repr, DecidableEq

/-- Errors surfaced by `TaskManagerAPI`.  The source raises plain
`Exception`s whose message either says an entity with a given id was not
found, or wraps the failing operation's context around `str(e)` of the
underlying `SQLAlchemyError`; `noneAttr` is the `AttributeError` Python
raises when `update_regular_task`/`update_irregular_task` dereferences a
missing base `Task` row (`task.name = name` with `task = None`). -/
inductive ApiErr where
  | notFound (entity : String) (id : Nat)
  | storeError (op : String) (cause : String)
  | noneAttr (op : String)
deriving Repr, DecidableEq

/-- Replace the first element satisfying `p` by its image under `f`
(the ORM mutates the single object returned by `.first()`). -/
def updateFirst {α : Type} (p : α → Bool) (f : α → α) : List α → List α
  | [] => []
  | x :: xs => if p x then f x :: xs else x :: updateFirst p f xs

/-- `session.query(User).filter_by(id=user_id).first()`. -/
def findUser (s : Store) (user_id : Nat) : Option UserRow :=
  s.users.find? (fun u => u.id == user_id)

/-- `session.query(Task).filter_by(id=task_id).first()`. -/
def findTask (s : Store) (task_id : Nat) : Option TaskRow :=
  s.tasks.find? (fun t => t.id == task_id)

/-- The `task.regular_task` relationship: the `RegularTask` row whose
`task_id` matches. -/
def findRegular (s : Store) (task_id : Nat) : Option RegularTaskRow :=
  s.regular_tasks.find? (fun r => r.task_id == task_id)

/-- The `task.irregular_task` relationship. -/
def findIrregular (s : Store) (task_id : Nat) : Option IrregularTaskRow :=
  s.irregular_tasks.find? (fun r => r.task_id == task_id)

/-- Python truthiness of an `Optional[str]` argument:
`if name:` is false for `None` and for the empty string. -/
def strTruthy : Option String → Bool
  | none => false
  | some s => !s.isEmpty

/-- `TaskManagerAPI.create_user`: add a `User(name=name)`, commit, return
its id; on `SQLAlchemyError` roll back and re-raise with context. -/
def create_user (s : Store) (fault : Option String) (name : String) :
    Except ApiErr Nat × Store :=
  match fault with
  | some cause => (.error (.storeError "create_user" cause), s)
  | none =>
    let uid := s.nextUserId
    (.ok uid,
      { s with users := s.users ++ [{ id := uid, name := name }],
               nextUserId := uid + 1 })

/-- `TaskManagerAPI.add_user_identifier`: add a
`UserID(user_id=..., identifier=..., identifier_type=...)`, commit,
return its id. -/
def add_user_identifier (s : Store) (fault : Option String)
    (user_id : Nat) (identifier identifier_type : String) :
    Except ApiErr Nat × Store :=
  match fault with
  | some cause => (.error (.storeError "add_user_identifier" cause), s)
  | none =>
    let iid := s.nextUserIDId
    (.ok iid,
      { s with user_ids := s.user_ids ++
          [{ id := iid, user_id := user_id, identifier := identifier,
             identifier_type := identifier_type }],
               nextUserIDId := iid + 1 })

/-- `TaskManagerAPI.get_user_by_identifier`: first `UserID` row matching
the (identifier, identifier_type) pair, then its `.user` relationship
(`None` when the row or its user is missing). -/
def get_user_by_identifier (s : Store) (identifier identifier_type : String) :
    Option UserRow :=
  match s.user_ids.find? (fun r =>
      r.identifier == identifier && r.identifier_type == identifier_type) with
  | some r => findUser s r.user_id
  | none => none

/-- `TaskManagerAPI.get_user`. -/
def get_user (s : Store) (user_id : Nat) : Option UserRow :=
  findUser s user_id

/-- `TaskManagerAPI.update_user`: raise not-found if no row, else set
`user.name` and commit. -/
def update_user (s : Store) (fault : Option String) (user_id : Nat)
    (name : String) : Except ApiErr Bool × Store :=
  match findUser s user_id with
  | none => (.error (.notFound "user" user_id), s)
  | some _ =>
    match fault with
    | some cause => (.error (.storeError "update_user" cause), s)
    | none =>
      (.ok true,
        { s with users := (updateFirst (fun u => u.id == user_id)
            (fun u => { u with name := name }) s.users) })

/-- The cascade of `session.delete(user)`: the user's `identifiers` and
`tasks` relationships are `delete-orphan`, and each deleted task cascades
to its extension rows. -/
def cascadeDeleteUser (s : Store) (user_id : Nat) : Store :=
  let deadTasks := (s.tasks.filter (fun t => t.user_id == user_id)).map (·.id)
  { s with
    users := s.users.filter (fun u => !(u.id == user_id)),
    user_ids := s.user_ids.filter (fun r => !(r.user_id == user_id)),
    tasks := s.tasks.filter (fun t => !(t.user_id == user_id)),
    regular_tasks := s.regular_tasks.filter (fun r => !(deadTasks.contains r.task_id)),
    irregular_tasks := s.irregular_tasks.filter (fun r => !(deadTasks.contains r.task_id)) }

/-- `TaskManagerAPI.delete_user`. -/
def delete_user (s : Store) (fault : Option String) (user_id : Nat) :
    Except ApiErr Bool × Store :=
  match findUser s user_id with
  | none => (.error (.notFound "user" user_id), s)
  | some _ =>
    match fault with
    | some cause => (.error (.storeError "delete_user" cause), s)
    | none => (.ok true, cascadeDeleteUser s user_id)

/-- `TaskManagerAPI.create_task`: add a
`Task(user_id=..., name=..., is_regular=...)` (progress defaults to 0),
commit, return its id. -/
def create_task (s : Store) (fault : Option String) (user_id : Nat)
    (name : String) (is_regular : Bool) : Except ApiErr Nat × Store :=
  match fault with
  | some cause => (.error (.storeError "create_task" cause), s)
  | none =>
    let tid := s.nextTaskId
    (.ok tid,
      { s with tasks := s.tasks ++
          [{ id := tid, user_id := user_id, name := name, progress := 0,
             is_regular := is_regular }],
               nextTaskId := tid + 1 })

/-- `TaskManagerAPI.create_regular_task`: `create_task(..., is_regular=True)`
(first commit), then add the `RegularTask` row and commit again.  The
wrapped error raised by a failing inner `create_task` is not an
`SQLAlchemyError`, so the outer handler lets it through unchanged. -/
def create_regular_task (s : Store) (fault1 fault2 : Option String)
    (user_id : Nat) (name weekdays : String) : Except ApiErr Nat × Store :=
  match create_task s fault1 user_id name true with
  | (.error e, s1) => (.error e, s1)
  | (.ok tid, s1) =>
    match fault2 with
    | some cause => (.error (.storeError "create_regular_task" cause), s1)
    | none =>
      let rid := s1.nextRegularId
      (.ok tid,
        { s1 with regular_tasks := s1.regular_tasks ++
            [{ id := rid, task_id := tid, weekdays := weekdays }],
                  nextRegularId := rid + 1 })

/-- `TaskManagerAPI.create_irregular_task`: `create_task(..., is_regular=False)`,
then add the `IrregularTask` row and commit again. -/
def create_irregular_task (s : Store) (fault1 fault2 : Option String)
    (user_id : Nat) (name : String) (optimal_deadline hard_deadline : DateV) :
    Except ApiErr Nat × Store :=
  match create_task s fault1 user_id name false with
  | (.error e, s1) => (.error e, s1)
  | (.ok tid, s1) =>
    match fault2 with
    | some cause => (.error (.storeError "create_irregular_task" cause), s1)
    | none =>
      let iid := s1.nextIrregularId
      (.ok tid,
        { s1 with irregular_tasks := s1.irregular_tasks ++
            [{ id := iid, task_id := tid,
               optimal_deadline := optimal_deadline,
               hard_deadline := hard_deadline }],
                  nextIrregularId := iid + 1 })

/-- `TaskManagerAPI.get_task`. -/
def get_task (s : Store) (task_id : Nat) : Option TaskRow :=
  findTask s task_id

/-- The dict built by `TaskManagerAPI.get_task_details`: the base fields
are always present, the extension fields only when the matching
extension row exists. -/
structure TaskDetails where
  id : Nat
  name : String
  progress : Int
  is_regular : Bool
  user_id : Nat
  weekdays : Option String
  optimal_deadline : Option DateV
  hard_deadline : Option DateV
deriving Repr, DecidableEq

/-- `TaskManagerAPI.get_task_details`: `None` when the task is missing;
otherwise the base fields, extended with `weekdays` when
`task.is_regular and task.regular_task`, or with both deadlines when
`not task.is_regular and task.irregular_task`. -/
def get_task_details (s : Store) (task_id : Nat) : Option TaskDetails :=
  match get_task s task_id with
  | none => none
  | some task =>
    let base : TaskDetails :=
      { id := task.id, name := task.name, progress := task.progress,
        is_regular := task.is_regular, user_id := task.user_id,
        weekdays := none, optimal_deadline := none, hard_deadline := none }
    if task.is_regular then
      match findRegular s task.id with
      | some rt => some { base with weekdays := some rt.weekdays }
      | none => some base
    else
      match findIrregular s task.id with
      | some it => some { base with optimal_deadline := some it.optimal_deadline,
                                    hard_deadline := some it.hard_deadline }
      | none => some base

/-- `TaskManagerAPI.get_user_tasks`:
`session.query(Task).filter_by(user_id=user_id).all()`. -/
def get_user_tasks (s : Store) (user_id : Nat) : List TaskRow :=
  s.tasks.filter (fun t => t.user_id == user_id)

/-- `TaskManagerAPI.update_task_progress`: raise not-found if no row,
else set `task.progress` (no range validation) and commit. -/
def update_task_progress (s : Store) (fault : Option String) (task_id : Nat)
    (progress : Int) : Except ApiErr Bool × Store :=
  match findTask s task_id with
  | none => (.error (.notFound "task" task_id), s)
  | some _ =>
    match fault with
    | some cause => (.error (.storeError "update_task_progress" cause), s)
    | none =>
      (.ok true,
        { s with tasks := (updateFirst (fun t => t.id == task_id)
            (fun t => { t with progress := progress }) s.tasks) })

/-- `TaskManagerAPI.update_regular_task`: not-found when no `RegularTask`
row has this `task_id`; `if name:` additionally queries the base `Task`
and sets its name (an `AttributeError` if that query returns `None`);
`if weekdays:` sets the extension's weekdays; one commit at the end. -/
def update_regular_task (s : Store) (fault : Option String) (task_id : Nat)
    (name weekdays : Option String) : Except ApiErr Bool × Store :=
  match findRegular s task_id with
  | none => (.error (.notFound "regular_task" task_id), s)
  | some _ =>
    if strTruthy name && (findTask s task_id).isNone then
      (.error (.noneAttr "update_regular_task"), s)
    else
      match fault with
      | some cause => (.error (.storeError "update_regular_task" cause), s)
      | none =>
        let s1 := if strTruthy name then
            { s with tasks := (updateFirst (fun t => t.id == task_id)
                (fun t => { t with name := name.getD t.name }) s.tasks) }
          else s
        let s2 := if strTruthy weekdays then
            { s1 with regular_tasks := (updateFirst (fun r => r.task_id == task_id)
                (fun r => { r with weekdays := weekdays.getD r.weekdays }) s1.regular_tasks) }
          else s1
        (.ok true, s2)

/-- `TaskManagerAPI.update_irregular_task`: analogous; the deadline
parameters are `date` objects, which are always truthy in Python, so
`if optimal_deadline:` is simply a not-`None` test. -/
def update_irregular_task (s : Store) (fault : Option String) (task_id : Nat)
    (name : Option String) (optimal_deadline hard_deadline : Option DateV) :
    Except ApiErr Bool × Store :=
  match findIrregular s task_id with
  | none => (.error (.notFound "irregular_task" task_id), s)
  | some _ =>
    if strTruthy name && (findTask s task_id).isNone then
      (.error (.noneAttr "update_irregular_task"), s)
    else
      match fault with
      | some cause => (.error (.storeError "update_irregular_task" cause), s)
      | none =>
        let s1 := if strTruthy name then
            { s with tasks := (updateFirst (fun t => t.id == task_id)
                (fun t => { t with name := name.getD t.name }) s.tasks) }
          else s
        let s2 := if optimal_deadline.isSome then
            { s1 with irregular_tasks := (updateFirst (fun r => r.task_id == task_id)
                (fun r => { r with optimal_deadline := optimal_deadline.getD r.optimal_deadline })
                s1.irregular_tasks) }
          else s1
        let s3 := if hard_deadline.isSome then
            { s2 with irregular_tasks := (updateFirst (fun r => r.task_id == task_id)
                (fun r => { r with hard_deadline := hard_deadline.getD r.hard_deadline })
                s2.irregular_tasks) }
          else s2
        (.ok true, s3)

/-- The cascade of `session.delete(task)`: both extension relationships
are `delete-orphan`. -/
def cascadeDeleteTask (s : Store) (task_id : Nat) : Store :=
  { s with
    tasks := s.tasks.filter (fun t => !(t.id == task_id)),
    regular_tasks := s.regular_tasks.filter (fun r => !(r.task_id == task_id)),
    irregular_tasks := s.irregular_tasks.filter (fun r => !(r.task_id == task_id)) }

/-- `TaskManagerAPI.delete_task`. -/
def delete_task (s : Store) (fault : Option String) (task_id : Nat) :
    Except ApiErr Bool × Store :=
  match findTask s task_id with
  | none => (.error (.notFound "task" task_id), s)
  | some _ =>
    match fault with
    | some cause => (.error (.storeError "delete_task" cause), s)
    | none => (.ok true, cascadeDeleteTask s task_id)

/-- Store well-formedness: every primary key already handed out is below
its table's autoincrement counter, and extension rows reference task ids
already handed out.  Every reachable store satisfies this. -/
def WF (s : Store) : Prop :=
  (∀ u ∈ s.users, u.id < s.nextUserId) ∧
  (∀ t ∈ s.tasks, t.id < s.nextTaskId) ∧
  (∀ r ∈ s.regular_tasks, r.task_id < s.nextTaskId) ∧
  (∀ r ∈ s.irregular_tasks, r.task_id < s.nextTaskId)

instance (s : Store) : Decidable (WF s) := by
  unfold WF; infer_instance

/-- The empty store, as produced by `Database.create_tables` on a fresh
database (autoincrement keys start at 1). -/
def emptyStore : Store :=
  { users := [], user_ids := [], tasks := [], regular_tasks := [],
    irregular_tasks := [], nextUserId := 1, nextUserIDId := 1,
    nextTaskId := 1, nextRegularId := 1, nextIrregularId := 1 }

/-- A store holding one user, as after `create_user` on the empty store. -/
def demoStore : Store := (create_user emptyStore none "Ivan").2

/-- A concrete store with one user, one identifier, one regular and one
irregular task, used to instantiate scenarios. -/
def c4Store : Store :=
  { users := [⟨1, "A"⟩], user_ids := [⟨1, 1, "123456789", "telegram"⟩],
    tasks := [⟨1, 1, "R", 0, true⟩, ⟨2, 1, "I", 0, false⟩],
    regular_tasks := [⟨1, 1, "1,2"⟩],
    irregular_tasks := [⟨1, 2, ⟨2025, 5, 10⟩, ⟨2025, 5, 15⟩⟩],
    nextUserId := 2, nextUserIDId := 2, nextTaskId := 3,
    nextRegularId := 2, nextIrregularId := 2 }

/-- A store with two users where both own a `UserID` row carrying the
same (identifier, identifier_type) pair — the model does not enforce
uniqueness of the pair, mirroring the schema. -/
def dupPairStore : Store :=
  { users := [⟨1, "A"⟩, ⟨2, "B"⟩],
    user_ids := [⟨1, 1, "123456789", "telegram"⟩],
    tasks := [], regular_tasks := [], irregular_tasks := [],
    nextUserId := 3, nextUserIDId := 2, nextTaskId := 1,
    nextRegularId := 1, nextIrregularId := 1 }

/-- A store with two users whose `UserID` rows share the pair
("x", "telegram"). -/
def sharedPairStore : Store :=
  { users := [⟨1, "A"⟩, ⟨2, "B"⟩],
    user_ids := [⟨1, 1, "x", "telegram"⟩, ⟨2, 2, "x", "telegram"⟩],
    tasks := [], regular_tasks := [], irregular_tasks := [],
    nextUserId := 3, nextUserIDId := 3, nextTaskId := 1,
    nextRegularId := 1, nextIrregularId := 1 }

/-! ### Helper lemmas about `updateFirst` and `List.find?` -/

theorem updateFirst_cons {α : Type} (p : α → Bool) (f : α → α) (a : α) (l : List α) :
    updateFirst p f (a :: l) = if p a then f a :: l else a :: updateFirst p f l := by
  rfl

theorem find?_updateFirst {α : Type} (p : α → Bool) (f : α → α) (l : List α)
    (hf : ∀ x, p x = true → p (f x) = true) {x : α} (hx : l.find? p = some x) :
    (updateFirst p f l).find? p = some (f x) := by
  induction l with
  | nil => simp [List.find?] at hx
  | cons a as ih =>
    rw [updateFirst_cons]
    by_cases hpa : p a = true
    · rw [List.find?_cons_of_pos _ hpa] at hx
      injection hx with hx1
      subst hx1
      rw [if_pos hpa, List.find?_cons_of_pos _ (hf a hpa)]
    · rw [List.find?_cons_of_neg _ hpa] at hx
      rw [if_neg hpa, List.find?_cons_of_neg _ hpa]
      exact ih hx

theorem mem_updateFirst_of_neg {α : Type} (p : α → Bool) (f : α → α) (l : List α)
    {y : α} (hy : y ∈ l) (hpy : p y = false) : y ∈ updateFirst p f l := by
  induction l with
  | nil => simp at hy
  | cons a as ih =>
    rw [updateFirst_cons]
    rcases List.mem_cons.mp hy with h | h
    · subst h
      simp [hpy]
    · by_cases hpa : p a = true
      · simp [hpa, h]
      · simpa [hpa] using Or.inr (ih h)

theorem find?_key_eq_none_of_lt {α : Type} (key : α → Nat) (l : List α) {n m : Nat}
    (h : ∀ x ∈ l, key x < n) (hm : n ≤ m) :
    l.find? (fun x => key x == m) = none := by
  rw [List.find?_eq_none]
  intro x hx
  simp only [beq_iff_eq]
  exact Nat.ne_of_lt (Nat.lt_of_lt_of_le (h x hx) hm)

theorem find?_append_fresh {α : Type} (p : α → Bool) (l : List α) (x : α)
    (hl : l.find? p = none) (hx : p x = true) :
    (l ++ [x]).find? p = some x := by
  rw [List.find?_append, hl]
  simp [List.find?, hx]

/-! ### Claims -/

/-- C9: creating a user then fetching it by the returned id is a round trip:
`create_user` succeeds (no store fault) with a fresh id, and `get_user` of
that id returns a user record whose name is the name passed in. -/
theorem C9_create_user_roundtrip (s : Store) (name : String)
    (hwf : ∀ u ∈ s.users, u.id < s.nextUserId) :
    (create_user s none name).1 = .ok s.nextUserId ∧
    get_user (create_user s none name).2 s.nextUserId
      = some ⟨s.nextUserId, name⟩ := by
  refine ⟨rfl, ?_⟩
  show (s.users ++ [({ id := s.nextUserId, name := name } : UserRow)]).find?
      (fun u : UserRow => u.id == s.nextUserId) = _
  exact find?_append_fresh _ _ _
    (find?_key_eq_none_of_lt (fun u : UserRow => u.id) _ hwf le_rfl) (by simp)

/-- C9 witness: the round trip at a concrete input. -/
theorem C9_witness :
    (create_user emptyStore none "Ivan").1 = .ok 1 ∧
    get_user (create_user emptyStore none "Ivan").2 1 = some ⟨1, "Ivan"⟩ :=
  C9_create_user_roundtrip emptyStore "Ivan" (by decide)

/-- C2: each of `update_user`, `update_task_progress`, `delete_user` and
`delete_task`, called on an id with no matching row, returns the not-found
error and leaves the store unchanged (the returned store is `s` itself),
whatever the fault oracle says — never a silent no-op. -/
theorem C2_notfound_never_silent (s : Store) (f : Option String)
    (uid tid : Nat) (name : String) (p : Int) :
    (get_user s uid = none →
       update_user s f uid name = (.error (.notFound "user" uid), s) ∧
       delete_user s f uid = (.error (.notFound "user" uid), s)) ∧
    (get_task s tid = none →
       update_task_progress s f tid p = (.error (.notFound "task" tid), s) ∧
       delete_task s f tid = (.error (.notFound "task" tid), s)) := by
  constructor
  · intro h
    replace h : findUser s uid = none := h
    constructor
    · simp [update_user, h]
    · simp [delete_user, h]
  · intro h
    replace h : findTask s tid = none := h
    constructor
    · simp [update_task_progress, h]
    · simp [delete_task, h]

/-- C2 witness: the four operations at id 7 on the empty store. -/
theorem C2_witness :
    update_user emptyStore none 7 "X" = (.error (.notFound "user" 7), emptyStore) ∧
    delete_user emptyStore none 7 = (.error (.notFound "user" 7), emptyStore) ∧
    update_task_progress emptyStore none 7 3 = (.error (.notFound "task" 7), emptyStore) ∧
    delete_task emptyStore none 7 = (.error (.notFound "task" 7), emptyStore) := by
  have h := C2_notfound_never_silent emptyStore none 7 7 "X" 3
  have h1 := h.1 (by decide)
  have h2 := h.2 (by decide)
  exact ⟨h1.1, h1.2, h2.1, h2.2⟩

/-- C6: for every stored task and every integer `p` — including negative
values and values above 100 — `update_task_progress` succeeds without any
validation and a re-fetch of the task shows `progress = p` with all other
fields unchanged. -/
theorem C6_progress_unvalidated (s : Store) (tid : Nat) (p : Int)
    (task : TaskRow) (h : get_task s tid = some task) :
    (update_task_progress s none tid p).1 = .ok true ∧
    get_task (update_task_progress s none tid p).2 tid
      = some ⟨task.id, task.user_id, task.name, p, task.is_regular⟩ := by
  replace h : findTask s tid = some task := h
  have hpair : update_task_progress s none tid p
      = (.ok true, { s with tasks := (updateFirst (fun t => t.id == tid)
          (fun t => { t with progress := p }) s.tasks) }) := by
    simp [update_task_progress, h]
  rw [hpair]
  refine ⟨rfl, ?_⟩
  show (updateFirst (fun t : TaskRow => t.id == tid)
      (fun t => { t with progress := p })
      s.tasks).find? (fun t : TaskRow => t.id == tid) = _
  exact find?_updateFirst (fun t : TaskRow => t.id == tid)
    (fun t => { t with progress := p }) s.tasks (fun x hx => hx) h

/-- C6 witness: progress 150 and progress -7 (both out of range) are
accepted and stored unchanged on a one-task store. -/
theorem C6_witness :
    (update_task_progress c4Store none 1 150).1 = .ok true ∧
    get_task (update_task_progress c4Store none 1 150).2 1
      = some ⟨1, 1, "R", 150, true⟩ ∧
    get_task (update_task_progress c4Store none 1 (-7)).2 1
      = some ⟨1, 1, "R", -7, true⟩ := by
  have h1 := C6_progress_unvalidated c4Store 1 150 ⟨1, 1, "R", 0, true⟩ (by decide)
  have h2 := C6_progress_unvalidated c4Store 1 (-7) ⟨1, 1, "R", 0, true⟩ (by decide)
  exact ⟨h1.1, h1.2, h2.2⟩

/-- C1: `get_task_details` merges the base `Task` fields (id, name,
progress, is_regular, user_id) with the matching extension's fields
depending on `is_regular`; after `create_regular_task` with name
"Exercise" and weekdays "1,2,3,4,5" (no faults, no intervening mutation)
it returns exactly that record with `progress = 0`; and for an id with no
`Task` row it returns `none`. -/
theorem C1_get_task_details_merge (s : Store) (t : Nat) :
    (get_task s t = none → get_task_details s t = none) ∧
    (∀ task rt, get_task s t = some task → task.is_regular = true →
       findRegular s task.id = some rt →
       get_task_details s t = some ⟨task.id, task.name, task.progress, true,
         task.user_id, some rt.weekdays, none, none⟩) ∧
    (∀ task it, get_task s t = some task → task.is_regular = false →
       findIrregular s task.id = some it →
       get_task_details s t = some ⟨task.id, task.name, task.progress, false,
         task.user_id, none, some it.optimal_deadline,
         some it.hard_deadline⟩) ∧
    (∀ u : Nat, WF s →
       ∀ tid s', create_regular_task s none none u "Exercise" "1,2,3,4,5"
           = (.ok tid, s') →
         get_task_details s' tid = some ⟨tid, "Exercise", 0, true, u,
           some "1,2,3,4,5", none, none⟩) := by
  refine ⟨?_, ?_, ?_, ?_⟩
  · intro h
    simp [get_task_details, h]
  · intro task rt h hreg hrt
    simp [get_task_details, h, hreg, hrt]
  · intro task it h hreg hit
    simp [get_task_details, h, hreg, hit]
  · rintro u ⟨hwf1, hwf2, hwf3, hwf4⟩ tid s' heq
    rw [show create_regular_task s none none u "Exercise" "1,2,3,4,5"
        = (.ok s.nextTaskId,
           { s with
             tasks := s.tasks ++ [⟨s.nextTaskId, u, "Exercise", 0, true⟩],
             nextTaskId := s.nextTaskId + 1,
             regular_tasks := s.regular_tasks ++
               [⟨s.nextRegularId, s.nextTaskId, "1,2,3,4,5"⟩],
             nextRegularId := s.nextRegularId + 1 }) from rfl] at heq
    injection heq with h1 h2
    injection h1 with h1
    subst h1
    subst h2
    have hget : (s.tasks ++
        [(⟨s.nextTaskId, u, "Exercise", 0, true⟩ : TaskRow)]).find?
        (fun x : TaskRow => x.id == s.nextTaskId)
        = some ⟨s.nextTaskId, u, "Exercise", 0, true⟩ :=
      find?_append_fresh _ _ _
        (find?_key_eq_none_of_lt (fun x : TaskRow => x.id) _ hwf2 le_rfl)
        (by simp)
    have hreg : (s.regular_tasks ++
        [(⟨s.nextRegularId, s.nextTaskId, "1,2,3,4,5"⟩ : RegularTaskRow)]).find?
        (fun r : RegularTaskRow => r.task_id == s.nextTaskId)
        = some ⟨s.nextRegularId, s.nextTaskId, "1,2,3,4,5"⟩ :=
      find?_append_fresh _ _ _
        (find?_key_eq_none_of_lt (fun r : RegularTaskRow => r.task_id) _ hwf3 le_rfl)
        (by simp)
    have hget' : get_task
        { s with
          tasks := s.tasks ++ [⟨s.nextTaskId, u, "Exercise", 0, true⟩],
          nextTaskId := s.nextTaskId + 1,
          regular_tasks := s.regular_tasks ++
            [⟨s.nextRegularId, s.nextTaskId, "1,2,3,4,5"⟩],
          nextRegularId := s.nextRegularId + 1 } s.nextTaskId
        = some ⟨s.nextTaskId, u, "Exercise", 0, true⟩ := hget
    have hreg' : findRegular
        { s with
          tasks := s.tasks ++ [⟨s.nextTaskId, u, "Exercise", 0, true⟩],
          nextTaskId := s.nextTaskId + 1,
          regular_tasks := s.regular_tasks ++
            [⟨s.nextRegularId, s.nextTaskId, "1,2,3,4,5"⟩],
          nextRegularId := s.nextRegularId + 1 } s.nextTaskId
        = some ⟨s.nextRegularId, s.nextTaskId, "1,2,3,4,5"⟩ := hreg
    simp [get_task_details, hget', hreg']

/-- C1 witness: the regular-task scenario at a concrete store. -/
theorem C1_witness :
    get_task_details
        ((create_regular_task demoStore none none 1 "Exercise" "1,2,3,4,5").2) 1
      = some ⟨1, "Exercise", 0, true, 1, some "1,2,3,4,5", none, none⟩ :=
  (C1_get_task_details_merge demoStore 1).2.2.2 1 (by decide) 1 _ (by rfl)

/-- C3: the composed creates are not atomic across their two writes.  In
the execution where the base `Task` insert commits and the extension-row
commit fails, `create_regular_task` (resp. `create_irregular_task`)
surfaces an error while the base task row — with its `is_regular` flag set —
remains in the store with no extension row referencing it. -/
theorem C3_composed_creates_not_atomic (s : Store) (cause : String)
    (u : Nat) (name weekdays : String) (od hd : DateV) (hwf : WF s) :
    ((create_regular_task s none (some cause) u name weekdays).1
      = .error (.storeError "create_regular_task" cause) ∧
     get_task (create_regular_task s none (some cause) u name weekdays).2
         s.nextTaskId = some ⟨s.nextTaskId, u, name, 0, true⟩ ∧
     findRegular (create_regular_task s none (some cause) u name weekdays).2
         s.nextTaskId = none) ∧
    ((create_irregular_task s none (some cause) u name od hd).1
      = .error (.storeError "create_irregular_task" cause) ∧
     get_task (create_irregular_task s none (some cause) u name od hd).2
         s.nextTaskId = some ⟨s.nextTaskId, u, name, 0, false⟩ ∧
     findIrregular (create_irregular_task s none (some cause) u name od hd).2
         s.nextTaskId = none) := by
  obtain ⟨hwf1, hwf2, hwf3, hwf4⟩ := hwf
  refine ⟨⟨rfl, ?_, ?_⟩, ⟨rfl, ?_, ?_⟩⟩
  · exact find?_append_fresh _ _ _
      (find?_key_eq_none_of_lt (fun x : TaskRow => x.id) _ hwf2 le_rfl)
      (by simp)
  · exact find?_key_eq_none_of_lt (fun r : RegularTaskRow => r.task_id) _
      hwf3 le_rfl
  · exact find?_append_fresh _ _ _
      (find?_key_eq_none_of_lt (fun x : TaskRow => x.id) _ hwf2 le_rfl)
      (by simp)
  · exact find?_key_eq_none_of_lt (fun r : IrregularTaskRow => r.task_id) _
      hwf4 le_rfl

/-- C3 witness: the partial write at a concrete store — the error is
raised, the orphaned base task row is fetchable with its flag set, and no
extension row references it. -/
theorem C3_witness :
    ((create_regular_task demoStore none (some "db down") 1 "Ex" "1,2").1
      = .error (.storeError "create_regular_task" "db down") ∧
     get_task (create_regular_task demoStore none (some "db down") 1 "Ex" "1,2").2 1
      = some ⟨1, 1, "Ex", 0, true⟩ ∧
     findRegular (create_regular_task demoStore none (some "db down") 1 "Ex" "1,2").2 1
      = none) ∧
    ((create_irregular_task demoStore none (some "db down") 1 "Ex"
        ⟨2025, 5, 10⟩ ⟨2025, 5, 15⟩).1
      = .error (.storeError "create_irregular_task" "db down") ∧
     get_task (create_irregular_task demoStore none (some "db down") 1 "Ex"
        ⟨2025, 5, 10⟩ ⟨2025, 5, 15⟩).2 1 = some ⟨1, 1, "Ex", 0, false⟩ ∧
     findIrregular (create_irregular_task demoStore none (some "db down") 1 "Ex"
        ⟨2025, 5, 10⟩ ⟨2025, 5, 15⟩).2 1 = none) :=
  C3_composed_creates_not_atomic demoStore "db down" 1 "Ex" "1,2"
    ⟨2025, 5, 10⟩ ⟨2025, 5, 15⟩ (by decide)

/-- C4: when the underlying store raises at a commit, every mutating
operation catches the store error, rolls back the current unit of work
(the returned store is exactly the committed store at the start of that
unit of work) and re-raises an error carrying the failing operation's
context and the original cause; the failure is never suppressed.  For the
composed creates, a first-commit failure surfaces the inner `create_task`
context and leaves the initial store; a second-commit failure leaves
exactly the store committed by the successful base insert. -/
theorem C4_store_failure_rollback (s : Store) (c : String) (uid tid : Nat)
    (name ident ty wd : String) (p : Int) (od hd : DateV)
    (nameO wdO : Option String) (odO hdO : Option DateV) :
    create_user s (some c) name = (.error (.storeError "create_user" c), s) ∧
    add_user_identifier s (some c) uid ident ty
      = (.error (.storeError "add_user_identifier" c), s) ∧
    create_task s (some c) uid name true
      = (.error (.storeError "create_task" c), s) ∧
    create_regular_task s (some c) none uid name wd
      = (.error (.storeError "create_task" c), s) ∧
    (∀ tid1 s1, create_task s none uid name true = (.ok tid1, s1) →
      create_regular_task s none (some c) uid name wd
        = (.error (.storeError "create_regular_task" c), s1)) ∧
    create_irregular_task s (some c) none uid name od hd
      = (.error (.storeError "create_task" c), s) ∧
    (∀ tid1 s1, create_task s none uid name false = (.ok tid1, s1) →
      create_irregular_task s none (some c) uid name od hd
        = (.error (.storeError "create_irregular_task" c), s1)) ∧
    ((findUser s uid).isSome = true →
      update_user s (some c) uid name
          = (.error (.storeError "update_user" c), s) ∧
        delete_user s (some c) uid
          = (.error (.storeError "delete_user" c), s)) ∧
    ((findTask s tid).isSome = true →
      update_task_progress s (some c) tid p
          = (.error (.storeError "update_task_progress" c), s) ∧
        delete_task s (some c) tid
          = (.error (.storeError "delete_task" c), s)) ∧
    ((findRegular s tid).isSome = true →
      (strTruthy nameO && (findTask s tid).isNone) = false →
      update_regular_task s (some c) tid nameO wdO
        = (.error (.storeError "update_regular_task" c), s)) ∧
    ((findIrregular s tid).isSome = true →
      (strTruthy nameO && (findTask s tid).isNone) = false →
      update_irregular_task s (some c) tid nameO odO hdO
        = (.error (.storeError "update_irregular_task" c), s)) := by
  refine ⟨rfl, rfl, rfl, rfl, ?_, rfl, ?_, ?_, ?_, ?_, ?_⟩
  · intro tid1 s1 h
    simp [create_regular_task, h]
  · intro tid1 s1 h
    simp [create_irregular_task, h]
  · intro h
    obtain ⟨u1, hu⟩ := Option.isSome_iff_exists.mp h
    exact ⟨by simp [update_user, hu], by simp [delete_user, hu]⟩
  · intro h
    obtain ⟨t1, ht⟩ := Option.isSome_iff_exists.mp h
    exact ⟨by simp [update_task_progress, ht], by simp [delete_task, ht]⟩
  · intro h hg
    obtain ⟨r1, hr⟩ := Option.isSome_iff_exists.mp h
    simp [update_regular_task, hr, hg]
  · intro h hg
    obtain ⟨r1, hr⟩ := Option.isSome_iff_exists.mp h
    simp [update_irregular_task, hr, hg]

/-- C4 witness: the failure scenarios at a concrete store, with every
conditional conjunct discharged. -/
theorem C4_witness :
    create_user c4Store (some "db down") "R2"
      = (.error (.storeError "create_user" "db down"), c4Store) ∧
    create_regular_task c4Store none (some "db down") 1 "R2" "3"
      = (.error (.storeError "create_regular_task" "db down"),
         (create_task c4Store none 1 "R2" true).2) ∧
    create_irregular_task c4Store none (some "db down") 1 "I2"
        ⟨2025, 6, 1⟩ ⟨2025, 6, 2⟩
      = (.error (.storeError "create_irregular_task" "db down"),
         (create_task c4Store none 1 "I2" false).2) ∧
    update_user c4Store (some "db down") 1 "R2"
      = (.error (.storeError "update_user" "db down"), c4Store) ∧
    delete_user c4Store (some "db down") 1
      = (.error (.storeError "delete_user" "db down"), c4Store) ∧
    update_task_progress c4Store (some "db down") 1 50
      = (.error (.storeError "update_task_progress" "db down"), c4Store) ∧
    delete_task c4Store (some "db down") 1
      = (.error (.storeError "delete_task" "db down"), c4Store) ∧
    update_regular_task c4Store (some "db down") 1 (some "N") (some "3")
      = (.error (.storeError "update_regular_task" "db down"), c4Store) ∧
    update_irregular_task c4Store (some "db down") 2 (some "N") none none
      = (.error (.storeError "update_irregular_task" "db down"), c4Store) := by
  have hr := C4_store_failure_rollback c4Store "db down" 1 1 "R2" "i" "t" "3"
    50 ⟨2025, 6, 1⟩ ⟨2025, 6, 2⟩ (some "N") (some "3") none none
  have hi := C4_store_failure_rollback c4Store "db down" 1 2 "I2" "i" "t" "3"
    50 ⟨2025, 6, 1⟩ ⟨2025, 6, 2⟩ (some "N") none none none
  obtain ⟨a1, a2, a3, a4, a5, a6, a7, a8, a9, a10, a11⟩ := hr
  obtain ⟨b1, b2, b3, b4, b5, b6, b7, b8, b9, b10, b11⟩ := hi
  exact ⟨a1, a5 3 _ (by rfl), b7 3 _ (by rfl), (a8 (by decide)).1,
    (a8 (by decide)).2, (a9 (by decide)).1, (a9 (by decide)).2,
    a10 (by decide) (by decide), b11 (by decide) (by decide)⟩

/-- C5 counterexample: the schema does not enforce uniqueness of the
(identifier, identifier_type) pair and `get_user_by_identifier` takes the
first matching row.  On `dupPairStore`, user 1 already owns the pair
("123456789", "telegram"); adding the same pair to the stored user 2
succeeds, yet the lookup then returns user 1, not user 2 — refuting the
claim for the stored user U = 2. -/
theorem C5_counterexample :
    get_user dupPairStore 2 = some ⟨2, "B"⟩ ∧
    (add_user_identifier dupPairStore none 2 "123456789" "telegram").1
      = .ok 2 ∧
    get_user_by_identifier
        (add_user_identifier dupPairStore none 2 "123456789" "telegram").2
        "123456789" "telegram" = some ⟨1, "A"⟩ ∧
    (⟨1, "A"⟩ : UserRow) ≠ ⟨2, "B"⟩ := by
  refine ⟨rfl, rfl, ?_, by decide⟩
  rfl

/-- C5 (amended): after `add_user_identifier(U, i, t)` succeeds for a
stored user U, and provided no `UserID` row with the pair (i, t) existed
before the call, `get_user_by_identifier(i, t)` returns U; and for every
pair matched by no `UserID` row, `get_user_by_identifier` returns
`none`. -/
theorem C5_identifier_lookup (s : Store) (uid : Nat) (ident ty : String)
    (u : UserRow) (hu : get_user s uid = some u)
    (hfresh : s.user_ids.find? (fun r =>
        r.identifier == ident && r.identifier_type == ty) = none) :
    (add_user_identifier s none uid ident ty).1 = .ok s.nextUserIDId ∧
    get_user_by_identifier (add_user_identifier s none uid ident ty).2
      ident ty = some u ∧
    (∀ i2 t2, s.user_ids.find? (fun r =>
        r.identifier == i2 && r.identifier_type == t2) = none →
      get_user_by_identifier s i2 t2 = none) := by
  refine ⟨rfl, ?_, ?_⟩
  · have hu' : s.users.find? (fun x : UserRow => x.id == uid) = some u := hu
    have hfind : (s.user_ids ++
        [(⟨s.nextUserIDId, uid, ident, ty⟩ : UserIDRow)]).find?
        (fun r : UserIDRow => r.identifier == ident && r.identifier_type == ty)
        = some ⟨s.nextUserIDId, uid, ident, ty⟩ :=
      find?_append_fresh _ _ _ hfresh (by simp)
    show get_user_by_identifier
        { s with user_ids := s.user_ids ++ [⟨s.nextUserIDId, uid, ident, ty⟩],
                 nextUserIDId := s.nextUserIDId + 1 } ident ty = some u
    simp only [get_user_by_identifier]
    rw [hfind]
    exact hu'
  · intro i2 t2 h2
    simp [get_user_by_identifier, h2]

/-- C5 witness: the amended lookup at a concrete store. -/
theorem C5_witness :
    (add_user_identifier demoStore none 1 "123456789" "telegram").1 = .ok 1 ∧
    get_user_by_identifier
        (add_user_identifier demoStore none 1 "123456789" "telegram").2
        "123456789" "telegram" = some ⟨1, "Ivan"⟩ ∧
    get_user_by_identifier demoStore "999" "discord" = none := by
  have h := C5_identifier_lookup demoStore 1 "123456789" "telegram"
    ⟨1, "Ivan"⟩ (by decide) (by decide)
  exact ⟨h.1, h.2.1, h.2.2 "999" "discord" (by decide)⟩

/-- C7 counterexample: on `sharedPairStore`, users 1 and 2 each own a
`UserID` row with the pair ("x", "telegram").  Deleting user 2 succeeds
and cascades, yet `get_user_by_identifier` of user 2's former pair
returns user 1 rather than `none` — refuting the claim's identifier
part. -/
theorem C7_counterexample :
    (delete_user sharedPairStore none 2).1 = .ok true ∧
    get_user_by_identifier (delete_user sharedPairStore none 2).2
      "x" "telegram" = some ⟨1, "A"⟩ := by
  exact ⟨rfl, rfl⟩

/-- C7 (amended): after `delete_user(U)` succeeds on a store whose task
primary keys are unique, every task of U is unfetchable (`get_task` and
`get_task_details` of each former task id return `none`),
`get_user_tasks(U)` is empty, and `get_user_by_identifier` of each of U's
former (identifier, identifier_type) pairs returns `none` provided every
`UserID` row carrying that pair belonged to U. -/
theorem C7_delete_user_cascades (s : Store) (uid : Nat) (u : UserRow)
    (hu : findUser s uid = some u)
    (hids : (s.tasks.map TaskRow.id).Nodup) :
    (delete_user s none uid).1 = .ok true ∧
    (∀ tid t, get_task s tid = some t → t.user_id = uid →
       get_task (delete_user s none uid).2 tid = none ∧
       get_task_details (delete_user s none uid).2 tid = none) ∧
    get_user_tasks (delete_user s none uid).2 uid = [] ∧
    (∀ r ∈ s.user_ids, r.user_id = uid →
       (∀ r2 ∈ s.user_ids, r2.identifier = r.identifier →
          r2.identifier_type = r.identifier_type → r2.user_id = uid) →
       get_user_by_identifier (delete_user s none uid).2
         r.identifier r.identifier_type = none) := by
  have hpair : delete_user s none uid = (.ok true, cascadeDeleteUser s uid) := by
    simp [delete_user, hu]
  rw [hpair]
  refine ⟨rfl, ?_, ?_, ?_⟩
  · intro tid t ht htu
    have ht' : findTask s tid = some t := ht
    have hmem := List.mem_of_find?_eq_some ht'
    have htid : t.id = tid := by simpa using List.find?_some ht'
    have hnone : (s.tasks.filter (fun x => !(x.user_id == uid))).find?
        (fun x : TaskRow => x.id == tid) = none := by
      rw [List.find?_eq_none]
      intro x hx
      obtain ⟨hxmem, hxfilt⟩ := List.mem_filter.mp hx
      simp only [beq_iff_eq]
      intro hxid
      have hxt : x = t :=
        List.inj_on_of_nodup_map hids hxmem hmem (by rw [hxid, htid])
      subst hxt
      rw [htu] at hxfilt
      simp at hxfilt
    have hget : get_task (cascadeDeleteUser s uid) tid = none := hnone
    exact ⟨hget, by simp [get_task_details, hget]⟩
  · show (s.tasks.filter (fun x => !(x.user_id == uid))).filter
        (fun x : TaskRow => x.user_id == uid) = []
    rw [List.filter_eq_nil_iff]
    intro a ha
    obtain ⟨ham, haf⟩ := List.mem_filter.mp ha
    simpa using haf
  · intro r hr hru hall
    have hnone : (s.user_ids.filter (fun x => !(x.user_id == uid))).find?
        (fun x : UserIDRow => x.identifier == r.identifier &&
          x.identifier_type == r.identifier_type) = none := by
      rw [List.find?_eq_none]
      intro x hx
      obtain ⟨hxmem, hxfilt⟩ := List.mem_filter.mp hx
      simp only [Bool.and_eq_true, beq_iff_eq, not_and]
      intro h1 h2
      rw [hall x hxmem h1 h2] at hxfilt
      simp at hxfilt
    show get_user_by_identifier (cascadeDeleteUser s uid)
      r.identifier r.identifier_type = none
    simp [get_user_by_identifier, cascadeDeleteUser, hnone]

/-- C7 witness: deleting user 1 of `c4Store` makes its task, task
details, task list and identifier pair unfetchable. -/
theorem C7_witness :
    (delete_user c4Store none 1).1 = .ok true ∧
    get_task (delete_user c4Store none 1).2 1 = none ∧
    get_task_details (delete_user c4Store none 1).2 1 = none ∧
    get_user_tasks (delete_user c4Store none 1).2 1 = [] ∧
    get_user_by_identifier (delete_user c4Store none 1).2
      "123456789" "telegram" = none := by
  have h := C7_delete_user_cascades c4Store 1 ⟨1, "A"⟩ (by decide) (by decide)
  have h2 := h.2.1 1 ⟨1, 1, "R", 0, true⟩ (by decide) (by decide)
  exact ⟨h.1, h2.1, h2.2, h.2.2.1,
    h.2.2.2 ⟨1, 1, "123456789", "telegram"⟩ (by decide) (by decide)
      (by decide)⟩

theorem find?_after_name_update (l : List TaskRow) (tid : Nat)
    (name : Option String) (t : TaskRow)
    (ht : l.find? (fun x => x.id == tid) = some t) :
    (if strTruthy name then
        updateFirst (fun x => x.id == tid)
          (fun x => { x with name := name.getD x.name }) l
      else l).find? (fun x : TaskRow => x.id == tid)
      = some ⟨t.id, t.user_id,
          (if strTruthy name then name.getD t.name else t.name),
          t.progress, t.is_regular⟩ := by
  by_cases hn : strTruthy name = true
  · rw [if_pos hn, if_pos hn,
      find?_updateFirst (fun x : TaskRow => x.id == tid)
        (fun x => { x with name := name.getD x.name }) l (fun x hx => hx) ht]
  · rw [if_neg hn, if_neg hn]
    exact ht

theorem find?_after_weekdays_update (l : List RegularTaskRow) (tid : Nat)
    (weekdays : Option String) (rt : RegularTaskRow)
    (hrt : l.find? (fun r => r.task_id == tid) = some rt) :
    (if strTruthy weekdays then
        updateFirst (fun r => r.task_id == tid)
          (fun r => { r with weekdays := weekdays.getD r.weekdays }) l
      else l).find? (fun r : RegularTaskRow => r.task_id == tid)
      = some ⟨rt.id, rt.task_id,
          (if strTruthy weekdays then weekdays.getD rt.weekdays
           else rt.weekdays)⟩ := by
  by_cases hw : strTruthy weekdays = true
  · rw [if_pos hw, if_pos hw,
      find?_updateFirst (fun r : RegularTaskRow => r.task_id == tid)
        (fun r => { r with weekdays := weekdays.getD r.weekdays }) l
        (fun x hx => hx) hrt]
  · rw [if_neg hw, if_neg hw]
    exact hrt

theorem find?_after_deadline_updates (l : List IrregularTaskRow) (tid : Nat)
    (odO hdO : Option DateV) (it : IrregularTaskRow)
    (hit : l.find? (fun r => r.task_id == tid) = some it) :
    (if hdO.isSome then
        updateFirst (fun r => r.task_id == tid)
          (fun r => { r with hard_deadline := hdO.getD r.hard_deadline })
          (if odO.isSome then
              updateFirst (fun r => r.task_id == tid)
                (fun r =>
                  { r with optimal_deadline := odO.getD r.optimal_deadline }) l
            else l)
      else
        (if odO.isSome then
            updateFirst (fun r => r.task_id == tid)
              (fun r =>
                { r with optimal_deadline := odO.getD r.optimal_deadline }) l
          else l)).find? (fun r : IrregularTaskRow => r.task_id == tid)
      = some ⟨it.id, it.task_id, odO.getD it.optimal_deadline,
          hdO.getD it.hard_deadline⟩ := by
  have h1 : (if odO.isSome then
      updateFirst (fun r => r.task_id == tid)
        (fun r => { r with optimal_deadline := odO.getD r.optimal_deadline }) l
    else l).find? (fun r : IrregularTaskRow => r.task_id == tid)
      = some ⟨it.id, it.task_id, odO.getD it.optimal_deadline,
          it.hard_deadline⟩ := by
    cases odO with
    | none => exact hit
    | some d =>
      rw [show (some d).isSome = true from rfl, if_pos rfl,
        find?_updateFirst (fun r : IrregularTaskRow => r.task_id == tid)
          (fun r => { r with optimal_deadline := (some d).getD r.optimal_deadline })
          l (fun x hx => hx) hit]
  cases hdO with
  | none => exact h1
  | some d =>
    rw [show (some d).isSome = true from rfl, if_pos rfl,
      find?_updateFirst (fun r : IrregularTaskRow => r.task_id == tid)
        (fun r => { r with hard_deadline := (some d).getD r.hard_deadline })
        _ (fun x hx => hx) h1]

theorem mem_ite_updateFirst {α : Type} (c : Prop) [Decidable c]
    (p : α → Bool) (f : α → α) (l : List α) {y : α}
    (hy : y ∈ l) (hpy : p y = false) :
    y ∈ (if c then updateFirst p f l else l) := by
  by_cases hc : c
  · rw [if_pos hc]
    exact mem_updateFirst_of_neg p f l hy hpy
  · rw [if_neg hc]
    exact hy

/-- C10: in `update_regular_task` and `update_irregular_task` the Python
truthiness test `if name:` makes the empty string behave exactly like
omitting the parameter: the call's outcome is identical to the
omitted-parameter call, and with an existing extension row the call
reports success while the whole store — in particular the stored name and
weekdays — is unchanged, so these operations cannot set a name or
weekdays to the empty string. -/
theorem C10_empty_string_like_none (s : Store) (f : Option String)
    (tid : Nat) (w : Option String) (odO hdO : Option DateV) :
    update_regular_task s f tid (some "") w
      = update_regular_task s f tid none w ∧
    update_regular_task s f tid w (some "")
      = update_regular_task s f tid w none ∧
    update_irregular_task s f tid (some "") odO hdO
      = update_irregular_task s f tid none odO hdO ∧
    ((findRegular s tid).isSome = true →
      update_regular_task s none tid (some "") (some "") = (.ok true, s)) ∧
    ((findIrregular s tid).isSome = true →
      update_irregular_task s none tid (some "") none none
        = (.ok true, s)) := by
  have he : strTruthy (some "") = false := rfl
  have hn : strTruthy none = false := rfl
  refine ⟨?_, ?_, ?_, ?_, ?_⟩
  · cases hfr : findRegular s tid <;>
      simp [update_regular_task, hfr, he, hn]
  · cases hfr : findRegular s tid <;>
      simp [update_regular_task, hfr, he, hn]
  · cases hfr : findIrregular s tid <;>
      simp [update_irregular_task, hfr, he, hn]
  · intro h
    obtain ⟨rt, hrt⟩ := Option.isSome_iff_exists.mp h
    simp [update_regular_task, hrt, he]
  · intro h
    obtain ⟨it, hit⟩ := Option.isSome_iff_exists.mp h
    simp [update_irregular_task, hit, he]

/-- C10 witness: the empty string is ignored at concrete stores that do
hold a regular (resp. irregular) extension row. -/
theorem C10_witness :
    update_regular_task c4Store none 1 (some "") (some "")
      = (.ok true, c4Store) ∧
    update_irregular_task c4Store none 2 (some "") none none
      = (.ok true, c4Store) ∧
    update_regular_task c4Store (some "db down") 1 (some "") (some "3")
      = update_regular_task c4Store (some "db down") 1 none (some "3") := by
  have h1 := C10_empty_string_like_none c4Store none 1 (some "") none none
  have h2 := C10_empty_string_like_none c4Store (some "db down") 2
    (some "3") none none
  exact ⟨h1.2.2.2.1 (by decide),
    (C10_empty_string_like_none c4Store none 2 none none none).2.2.2.2
      (by decide),
    (C10_empty_string_like_none c4Store (some "db down") 1 (some "3")
      none none).1⟩

/-- C8 counterexample: on `c4Store`, passing the empty string as the name
parameter of `update_regular_task` reports success and leaves the store —
in particular the base task's name "R" — completely unchanged, so the
provided parameter is not written, refuting the claim that each provided
parameter is written. -/
theorem C8_counterexample :
    update_regular_task c4Store none 1 (some "") none = (.ok true, c4Store) ∧
    get_task c4Store 1 = some ⟨1, 1, "R", 0, true⟩ ∧
    ("R" : String) ≠ "" := by
  exact ⟨rfl, rfl, by decide⟩

/-- C8 (amended): `update_regular_task(id, name?, weekdays?)` and
`update_irregular_task(id, name?, optimalDeadline?, hardDeadline?)` are
partial updates committed once per call: a name (resp. weekdays) provided
as a non-empty string is written (name to the base `Task` row, the others
to the extension row), a provided deadline is always written, every field
whose parameter is omitted — or, as the counterexample forces, whose
string parameter is the empty string — keeps its previous value, all rows
other than the targeted task and extension rows are unchanged, and each
operation yields the not-found error with the store untouched when no
extension row with that `task_id` exists. -/
theorem C8_partial_updates (s : Store) (tid : Nat)
    (name weekdays : Option String) (odO hdO : Option DateV) :
    (findRegular s tid = none →
       update_regular_task s none tid name weekdays
         = (.error (.notFound "regular_task" tid), s)) ∧
    (findIrregular s tid = none →
       update_irregular_task s none tid name odO hdO
         = (.error (.notFound "irregular_task" tid), s)) ∧
    (∀ rt t, findRegular s tid = some rt → findTask s tid = some t →
       (update_regular_task s none tid name weekdays).1 = .ok true ∧
       get_task (update_regular_task s none tid name weekdays).2 tid
         = some ⟨t.id, t.user_id,
             (if strTruthy name then name.getD t.name else t.name),
             t.progress, t.is_regular⟩ ∧
       findRegular (update_regular_task s none tid name weekdays).2 tid
         = some ⟨rt.id, rt.task_id,
             (if strTruthy weekdays then weekdays.getD rt.weekdays
              else rt.weekdays)⟩ ∧
       (update_regular_task s none tid name weekdays).2.users = s.users ∧
       (update_regular_task s none tid name weekdays).2.user_ids
         = s.user_ids ∧
       (update_regular_task s none tid name weekdays).2.irregular_tasks
         = s.irregular_tasks ∧
       (∀ t2 ∈ s.tasks, t2.id ≠ tid →
          t2 ∈ (update_regular_task s none tid name weekdays).2.tasks) ∧
       (∀ r2 ∈ s.regular_tasks, r2.task_id ≠ tid →
          r2 ∈ (update_regular_task s none tid name weekdays).2.regular_tasks)) ∧
    (∀ it t, findIrregular s tid = some it → findTask s tid = some t →
       (update_irregular_task s none tid name odO hdO).1 = .ok true ∧
       get_task (update_irregular_task s none tid name odO hdO).2 tid
         = some ⟨t.id, t.user_id,
             (if strTruthy name then name.getD t.name else t.name),
             t.progress, t.is_regular⟩ ∧
       findIrregular (update_irregular_task s none tid name odO hdO).2 tid
         = some ⟨it.id, it.task_id, odO.getD it.optimal_deadline,
             hdO.getD it.hard_deadline⟩ ∧
       (update_irregular_task s none tid name odO hdO).2.users = s.users ∧
       (update_irregular_task s none tid name odO hdO).2.user_ids
         = s.user_ids ∧
       (update_irregular_task s none tid name odO hdO).2.regular_tasks
         = s.regular_tasks ∧
       (∀ t2 ∈ s.tasks, t2.id ≠ tid →
          t2 ∈ (update_irregular_task s none tid name odO hdO).2.tasks) ∧
       (∀ r2 ∈ s.irregular_tasks, r2.task_id ≠ tid →
          r2 ∈ (update_irregular_task s none tid name odO hdO).2.irregular_tasks)) := by
  refine ⟨?_, ?_, ?_, ?_⟩
  · intro h
    simp [update_regular_task, h]
  · intro h
    simp [update_irregular_task, h]
  · intro rt t hrt ht
    have hguard : (strTruthy name && (findTask s tid).isNone) = false := by
      rw [ht]
      simp
    have hpair : update_regular_task s none tid name weekdays
        = (.ok true,
           { s with
             tasks := (if strTruthy name then
                 updateFirst (fun x => x.id == tid)
                   (fun x => { x with name := name.getD x.name }) s.tasks
               else s.tasks),
             regular_tasks := (if strTruthy weekdays then
                 updateFirst (fun r => r.task_id == tid)
                   (fun r => { r with weekdays := weekdays.getD r.weekdays })
                   s.regular_tasks
               else s.regular_tasks) }) := by
      simp only [update_regular_task, hrt, hguard]
      by_cases hn : strTruthy name = true <;>
        by_cases hw : strTruthy weekdays = true <;>
          simp [hn, hw]
    rw [hpair]
    refine ⟨rfl, ?_, ?_, rfl, rfl, rfl, ?_, ?_⟩
    · exact find?_after_name_update s.tasks tid name t ht
    · exact find?_after_weekdays_update s.regular_tasks tid weekdays rt hrt
    · intro t2 h2 hne
      exact mem_ite_updateFirst _ _ _ _ h2 (by simpa using hne)
    · intro r2 h2 hne
      exact mem_ite_updateFirst _ _ _ _ h2 (by simpa using hne)
  · intro it t hit ht
    have hguard : (strTruthy name && (findTask s tid).isNone) = false := by
      rw [ht]
      simp
    have hpair : update_irregular_task s none tid name odO hdO
        = (.ok true,
           { s with
             tasks := (if strTruthy name then
                 updateFirst (fun x => x.id == tid)
                   (fun x => { x with name := name.getD x.name }) s.tasks
               else s.tasks),
             irregular_tasks := (if hdO.isSome then
                 updateFirst (fun r => r.task_id == tid)
                   (fun r =>
                     { r with hard_deadline := hdO.getD r.hard_deadline })
                   (if odO.isSome then
                       updateFirst (fun r => r.task_id == tid)
                         (fun r =>
                           { r with optimal_deadline :=
                               odO.getD r.optimal_deadline })
                         s.irregular_tasks
                     else s.irregular_tasks)
               else
                 (if odO.isSome then
                     updateFirst (fun r => r.task_id == tid)
                       (fun r =>
                         { r with optimal_deadline :=
                             odO.getD r.optimal_deadline })
                       s.irregular_tasks
                   else s.irregular_tasks)) }) := by
      simp only [update_irregular_task, hit, hguard]
      by_cases hn : strTruthy name = true <;>
        cases odO <;> cases hdO <;> simp [hn]
    rw [hpair]
    refine ⟨rfl, ?_, ?_, rfl, rfl, rfl, ?_, ?_⟩
    · exact find?_after_name_update s.tasks tid name t ht
    · exact find?_after_deadline_updates s.irregular_tasks tid odO hdO it hit
    · intro t2 h2 hne
      exact mem_ite_updateFirst _ _ _ _ h2 (by simpa using hne)
    · intro r2 h2 hne
      by_cases ho : odO.isSome
      · refine mem_ite_updateFirst _ _ _ _ ?_ (by simpa using hne)
        exact mem_ite_updateFirst _ _ _ _ h2 (by simpa using hne)
      · refine mem_ite_updateFirst _ _ _ _ ?_ (by simpa using hne)
        exact mem_ite_updateFirst _ _ _ _ h2 (by simpa using hne)

/-- C8 witness: the amended behaviour at `c4Store` — non-empty values are
written, the missing-extension case yields not-found, and a provided
deadline is written while the omitted one is kept. -/
theorem C8_witness :
    (update_regular_task c4Store none 1 (some "N") (some "6,7")).1
      = .ok true ∧
    get_task (update_regular_task c4Store none 1 (some "N") (some "6,7")).2 1
      = some ⟨1, 1, "N", 0, true⟩ ∧
    findRegular
        (update_regular_task c4Store none 1 (some "N") (some "6,7")).2 1
      = some ⟨1, 1, "6,7"⟩ ∧
    update_irregular_task c4Store none 1 (some "N") none none
      = (.error (.notFound "irregular_task" 1), c4Store) ∧
    (update_irregular_task c4Store none 2 (some "N")
        (some ⟨2025, 6, 1⟩) none).1 = .ok true ∧
    findIrregular (update_irregular_task c4Store none 2 (some "N")
        (some ⟨2025, 6, 1⟩) none).2 2
      = some ⟨1, 2, ⟨2025, 6, 1⟩, ⟨2025, 5, 15⟩⟩ := by
  have hr := C8_partial_updates c4Store 1 (some "N") (some "6,7") none none
  have hr2 := hr.2.2.1 ⟨1, 1, "1,2"⟩ ⟨1, 1, "R", 0, true⟩ (by decide) (by decide)
  have hi := C8_partial_updates c4Store 2 (some "N") none
    (some ⟨2025, 6, 1⟩) none
  have hi2 := hi.2.2.2 ⟨1, 2, ⟨2025, 5, 10⟩, ⟨2025, 5, 15⟩⟩
    ⟨2, 1, "I", 0, false⟩ (by decide) (by decide)
  exact ⟨hr2.1, hr2.2.1, hr2.2.2.1, hr.2.1 (by decide), hi2.1, hi2.2.2.1⟩

end SQLApi
